import Mathlib

/-!
Verification of the data-access and request-lifecycle boundary of the
b2032-kepler-app repository: a shallow embedding of
`src/database/utils.py` and `src/api/routes.py`, followed by theorems
about the embedded definitions.

Rows fetched from the store are Python tuples (or, pathologically,
non-sequence objects); cell values are opaque to the code under study,
so the embedding is parametric in a cell type `α`.
-/

namespace Kepler

/-- Python-level exceptions that can arise in the embedded code.
`connectionError` and `queryError` model the errors of the external
duckdb layer (the spec's ConnectionError / QueryError categories);
`indexError`, `typeError` and `valueError` are the Python built-ins
raised or caught inside `src/database/utils.py` and
`src/api/routes.py` (`valueError` is the spec's DataShapeError). -/
inductive PyErr where
  | connectionError (msg : String)
  | queryError      (msg : String)
  | indexError      (msg : String)
  | typeError       (msg : String)
  | valueError      (msg : String)
deriving DecidableEq, Repr

/-- Python `str(e)`: the human-readable description of the exception. -/
def PyErr.str : PyErr → String
  | .connectionError msg => msg
  | .queryError msg      => msg
  | .indexError msg      => msg
  | .typeError msg       => msg
  | .valueError msg      => msg

/-- A raw row as returned by `fetchall()`: either a tuple of cells, or a
non-sequence object (for which `len(row)` raises `TypeError` and
`row[i]` raises `TypeError`). -/
inductive PyRow (α : Type) where
  | tuple (cells : List α)
  | nonSeq
deriving DecidableEq, Repr

/-- Python `len(row)`; raises `TypeError` on a non-sequence object. -/
def PyRow.pyLen {α : Type} : PyRow α → Except PyErr Nat
  | .tuple cells => .ok cells.length
  | .nonSeq => .error (.typeError "object of this type has no len()")

/-- Python `row[i]`; `IndexError` when the tuple is too short,
`TypeError` on a non-subscriptable object. -/
def PyRow.getItem {α : Type} : PyRow α → Nat → Except PyErr α
  | .tuple cells, i =>
      match cells.get? i with
      | some v => .ok v
      | none => .error (.indexError "tuple index out of range")
  | .nonSeq, _ => .error (.typeError "object is not subscriptable")

/-- The structured record built by the mapping steps: the Python dict
with keys id, latitude, longitude, value
(`src/database/utils.py` 46-51, `src/api/routes.py` 32). -/
structure SensorRecord (α : Type) where
  id : α
  latitude : α
  longitude : α
  value : α
deriving DecidableEq, Repr

/-- The contents of one on-disk store: its tables, each a named list of
rows. -/
structure Database (α : Type) where
  tables : List (String × List (PyRow α))
deriving DecidableEq, Repr

/-- Look a table up by name. -/
def Database.lookup {α : Type} (db : Database α) (name : String) :
    Option (List (PyRow α)) :=
  match db.tables.find? (fun t => t.1 = name) with
  | some t => some t.2
  | none => none

/-- An open duckdb connection handle: the database it reads plus its
open/closed state. -/
structure Conn (α : Type) where
  db : Database α
  isOpen : Bool
deriving DecidableEq, Repr

/-- `conn.close()` (idempotent at the handle level; the *number of
calls* is tracked separately through the event trace). -/
def Conn.close {α : Type} (c : Conn α) : Conn α :=
  { c with isOpen := false }

/-- Observable effects of one operation, used to count how often each
side-effecting call runs. -/
inductive Event where
  | connect (path : String)
  | close
  | execute (query : String)
deriving DecidableEq, Repr

instance : BEq Event := instBEqOfDecidableEq

/-- `os.getenv(name, default)`: the process environment is a partial
map from variable names to values. -/
def os_getenv (env : String → Option String) (name default : String) :
    String :=
  match env name with
  | some v => v
  | none => default

/-- Path resolution of `get_database_connection`
(`src/database/utils.py` 9-10): an explicit `db_path` argument wins;
otherwise `DATABASE_PATH`; otherwise the fixed default filename. -/
def resolvePath (dbPath : Option String) (env : String → Option String) :
    String :=
  match dbPath with
  | some p => p
  | none => os_getenv env "DATABASE_PATH" "my_geospatial_data.duckdb"

/-- Modelled from the spec: the external `duckdb.connect(path)` call,
which is not part of this repository. Per the spec (§4.1, §8): when
the store cannot be opened at the resolved path it fails with
`ConnectionError` carrying the underlying cause; otherwise it yields an
open handle. The filesystem is modelled as a partial map from paths to
database contents. -/
def duckdb_connect {α : Type} (store : String → Option (Database α))
    (path : String) : Except PyErr (Conn α) :=
  match store path with
  | none =>
      .error (.connectionError ("unable to open database file: " ++ path))
  | some db => .ok { db := db, isOpen := true }

/-- Modelled from the spec: the external
`conn.execute("SELECT * FROM " + table).fetchall()` pair, which is not
part of this repository. Per the spec (§4.2, §8): when the table does
not exist the query fails with `QueryError`; otherwise it returns all
rows in store order. A closed handle cannot execute. -/
def Conn.executeFetchall {α : Type} (c : Conn α) (table : String) :
    Except PyErr (List (PyRow α)) :=
  if c.isOpen then
    match c.db.lookup table with
    | none => .error (.queryError ("Table with name " ++ table ++
        " does not exist"))
    | some rows => .ok rows
  else .error (.connectionError "connection already closed")

/-- The `with get_database_connection(db_path) as conn: body` construct
of `src/database/utils.py` 6-22, run on a body that reports its result
and its own event trace. Faithful to the generator:
line 14 `conn = duckdb.connect(db_path)` (if it raises, `conn` is
`None`, the `except` and `finally` guards skip the close);
line 15 `yield conn` runs the body; if the body raises, the `except`
block (17-19) closes `conn` and re-raises, after which the `finally`
block (20-22) closes `conn` a second time (`conn` was never reset to
`None`); on normal completion only the `finally` close runs. -/
def get_database_connection {α β : Type}
    (store : String → Option (Database α)) (dbPath : Option String)
    (env : String → Option String)
    (body : Conn α → Except PyErr β × List Event) :
    Except PyErr β × List Event :=
  let path := resolvePath dbPath env
  match duckdb_connect store path with
  | .error e => (.error e, [Event.connect path])
  | .ok conn =>
      let r := body conn
      match r.1 with
      | .ok b => (.ok b, Event.connect path :: r.2 ++ [Event.close])
      | .error e =>
          (.error e, Event.connect path :: r.2 ++ [Event.close, Event.close])

/-- The duplicate context manager `get_db_connection` of
`src/api/routes.py` 9-23: identical to `get_database_connection`
except that no explicit path argument exists, so the path always comes
from `DATABASE_PATH` or the default (line 12). -/
def get_db_connection {α β : Type}
    (store : String → Option (Database α))
    (env : String → Option String)
    (body : Conn α → Except PyErr β × List Event) :
    Except PyErr β × List Event :=
  let path := os_getenv env "DATABASE_PATH" "my_geospatial_data.duckdb"
  match duckdb_connect store path with
  | .error e => (.error e, [Event.connect path])
  | .ok conn =>
      let r := body conn
      match r.1 with
      | .ok b => (.ok b, Event.connect path :: r.2 ++ [Event.close])
      | .error e =>
          (.error e, Event.connect path :: r.2 ++ [Event.close, Event.close])

/-- The fixed query text (`src/database/utils.py` 32/37,
`src/api/routes.py` 30). -/
def sensorQuery : String := "SELECT * FROM sensor_readings"

/-- `fetch_geospatial_data(connection)` with a caller-supplied
connection (`src/database/utils.py` 31-34): execute the fixed query on
that connection and return the rows; the connection is handed back to
the caller untouched — no close is issued. Result: the query outcome,
the connection as the caller still holds it, and the event trace. -/
def fetch_geospatial_data_with {α : Type} (c : Conn α) :
    Except PyErr (List (PyRow α)) × Conn α × List Event :=
  (c.executeFetchall "sensor_readings", c, [Event.execute sensorQuery])

/-- `fetch_geospatial_data(db_path=...)` with no connection supplied
(`src/database/utils.py` 35-39): acquire a scoped connection and
execute the fixed query inside it. -/
def fetch_geospatial_data {α : Type}
    (store : String → Option (Database α)) (dbPath : Option String)
    (env : String → Option String) :
    Except PyErr (List (PyRow α)) × List Event :=
  get_database_connection store dbPath env
    (fun conn =>
      (conn.executeFetchall "sensor_readings", [Event.execute sensorQuery]))

/-- The loop body of `process_data` (`src/database/utils.py` 44-52):
walk the rows; `len(row)` on a non-sequence raises `TypeError`; a
tuple with at least four cells is mapped to a record from its first
four positional values; a shorter tuple is skipped. -/
def processDataLoop {α : Type} :
    List (PyRow α) → Except PyErr (List (SensorRecord α))
  | [] => .ok []
  | PyRow.nonSeq :: _ =>
      .error (.typeError "object of this type has no len()")
  | PyRow.tuple (i :: la :: lo :: v :: _) :: rest =>
      match processDataLoop rest with
      | .ok out =>
          .ok ({ id := i, latitude := la, longitude := lo, value := v } :: out)
      | .error e => .error e
  | PyRow.tuple _ :: rest => processDataLoop rest

/-- `process_data` (`src/database/utils.py` 41-55): the loop above,
wrapped in `try/except (IndexError, TypeError)` which re-raises those
two kinds as `ValueError("Error processing data: " + str(e))`. -/
def process_data {α : Type} (data : List (PyRow α)) :
    Except PyErr (List (SensorRecord α)) :=
  match processDataLoop data with
  | .ok out => .ok out
  | .error (.indexError m) =>
      .error (.valueError ("Error processing data: " ++
        PyErr.str (.indexError m)))
  | .error (.typeError m) =>
      .error (.valueError ("Error processing data: " ++
        PyErr.str (.typeError m)))
  | .error e => .error e

/-- `get_sensor_readings(db_path)` (`src/database/utils.py` 57-60):
fetch through the scoped connection, then map with `process_data`. -/
def get_sensor_readings {α : Type}
    (store : String → Option (Database α)) (dbPath : Option String)
    (env : String → Option String) :
    Except PyErr (List (SensorRecord α)) × List Event :=
  let r := fetch_geospatial_data store dbPath env
  match r.1 with
  | .error e => (.error e, r.2)
  | .ok rows => (process_data rows, r.2)

/-- The list comprehension of `src/api/routes.py` 32: build a record
from `row[0] .. row[3]` for every row, with no arity guard — a short
row raises `IndexError`, aborting the whole comprehension. -/
def mapRowsRoute {α : Type} :
    List (PyRow α) → Except PyErr (List (SensorRecord α))
  | [] => .ok []
  | row :: rest => do
      let i ← row.getItem 0
      let la ← row.getItem 1
      let lo ← row.getItem 2
      let v ← row.getItem 3
      let out ← mapRowsRoute rest
      pure ({ id := i, latitude := la, longitude := lo, value := v } :: out)

/-- The HTTP outcome of the `GET /data/sensor_readings` handler:
either `200` with the JSON array of records, or a raised
`HTTPException` with a status code and a `detail` string. -/
inductive HttpResult (α : Type) where
  | success (records : List (SensorRecord α))
  | httpException (status : Nat) (detail : String)
deriving DecidableEq, Repr

/-- The response status code: FastAPI serialises a normal return as
`200 OK` and an `HTTPException` with its carried status. -/
def HttpResult.status {α : Type} : HttpResult α → Nat
  | .success _ => 200
  | .httpException s _ => s

/-- `get_data` (`src/api/routes.py` 25-34): inside
`try: with get_db_connection() as conn:` execute the fixed query,
fetch all rows and run the unguarded comprehension; any exception is
caught (line 33) and re-raised as
`HTTPException(status_code=500, detail="Database error: " + str(e))`. -/
def get_data {α : Type} (store : String → Option (Database α))
    (env : String → Option String) : HttpResult α :=
  let r := get_db_connection store env
    (fun conn =>
      match conn.executeFetchall "sensor_readings" with
      | .error e => (.error e, [Event.execute sensorQuery])
      | .ok rows => (mapRowsRoute rows, [Event.execute sensorQuery]))
  match r.1 with
  | .ok recs => .success recs
  | .error e => .httpException 500 ("Database error: " ++ PyErr.str e)

/-- The record a well-formed row denotes: its first four positional
values, `none` for a short or non-tuple row. Used to state which rows
survive the mapping step. -/
def rowRecord {α : Type} : PyRow α → Option (SensorRecord α)
  | PyRow.tuple (i :: la :: lo :: v :: _) =>
      some { id := i, latitude := la, longitude := lo, value := v }
  | _ => none

/-- A well-formed row: a tuple with at least four cells. -/
def wellFormed {α : Type} : PyRow α → Prop
  | PyRow.tuple cells => 4 ≤ cells.length
  | PyRow.nonSeq => False

/-- How many times `conn.close()` ran in a trace. -/
def countClose : List Event → Nat
  | [] => 0
  | Event.close :: rest => countClose rest + 1
  | _ :: rest => countClose rest

/-- A two-row store used to evaluate the theorems on concrete input. -/
def demoRows : List (PyRow Nat) :=
  [PyRow.tuple [1, 2, 3, 4], PyRow.tuple [5, 6, 7, 8, 9]]

/-- The demo database: a single `sensor_readings` table. -/
def demoDb : Database Nat := { tables := [("sensor_readings", demoRows)] }

/-- A filesystem holding the demo database at every path. -/
def demoStore : String → Option (Database Nat) := fun _ => some demoDb

/-- An empty process environment. -/
def noEnv : String → Option String := fun _ => none

/-- The spec's end-to-end example rows (§8): two well-formed rows and
one short row; numeric cells modelled by their decimal literals. -/
def exampleRows : List (PyRow String) :=
  [PyRow.tuple ["1", "37.1", "-122.1", "10.5"],
   PyRow.tuple ["2", "37.2", "-122.2", "20.0"],
   PyRow.tuple ["3", "0", "0"]]

/-- A filesystem holding the example store at every path. -/
def exampleStore : String → Option (Database String) :=
  fun _ => some { tables := [("sensor_readings", exampleRows)] }

instance {α : Type} (r : PyRow α) : Decidable (wellFormed r) := by
  cases r with
  | tuple cells => exact (inferInstance : Decidable (4 ≤ cells.length))
  | nonSeq => exact (inferInstance : Decidable False)

/-! ## Helper lemmas -/

/-- On data made only of tuples, the `process_data` loop never raises:
rows with at least four cells are mapped, shorter ones skipped. -/
theorem processDataLoop_tuples {α : Type} (data : List (PyRow α))
    (h : ∀ r ∈ data, r ≠ PyRow.nonSeq) :
    processDataLoop data = .ok (data.filterMap rowRecord) := by
  induction data with
  | nil => simp [processDataLoop]
  | cons row rest ih =>
    have hrow : row ≠ PyRow.nonSeq := h row (by simp)
    have hrest : ∀ r ∈ rest, r ≠ PyRow.nonSeq := fun r hr => h r (by simp [hr])
    cases row with
    | nonSeq => exact absurd rfl hrow
    | tuple cells =>
      match cells with
      | [] => simpa [processDataLoop, rowRecord] using ih hrest
      | [a] => simpa [processDataLoop, rowRecord] using ih hrest
      | [a, b] => simpa [processDataLoop, rowRecord] using ih hrest
      | [a, b, c] => simpa [processDataLoop, rowRecord] using ih hrest
      | a :: b :: c :: d :: t =>
        simp [processDataLoop, rowRecord, ih hrest]

/-- If a non-sequence row is present, the `process_data` loop raises the
`TypeError` coming from `len(row)`. -/
theorem processDataLoop_nonSeq {α : Type} (data : List (PyRow α))
    (h : PyRow.nonSeq ∈ data) :
    processDataLoop data =
      .error (.typeError "object of this type has no len()") := by
  induction data with
  | nil => cases h
  | cons row rest ih =>
    cases row with
    | nonSeq => simp [processDataLoop]
    | tuple cells =>
      have hmem : PyRow.nonSeq ∈ rest := by
        rcases List.mem_cons.mp h with h1 | h1
        · cases h1
        · exact h1
      match cells with
      | [] => simpa [processDataLoop] using ih hmem
      | [a] => simpa [processDataLoop] using ih hmem
      | [a, b] => simpa [processDataLoop] using ih hmem
      | [a, b, c] => simpa [processDataLoop] using ih hmem
      | a :: b :: c :: d :: t => simp [processDataLoop, ih hmem]

/-- The routes context manager is the utils one with no explicit path
argument. -/
theorem get_db_connection_eq {α β : Type}
    (store : String → Option (Database α)) (env : String → Option String)
    (body : Conn α → Except PyErr β × List Event) :
    get_db_connection store env body =
      get_database_connection store none env body := rfl

/-! ## Claim theorems -/

/-- C4: connection acquisition resolves the store path with fixed
precedence: an explicit path argument wins over any environment; with
no argument, a set `DATABASE_PATH` variable is used; with neither, the
fixed default filename `my_geospatial_data.duckdb` is used; and the
scoped acquisition actually connects at the resolved path. -/
theorem C4_path_precedence {α β : Type} (p e : String)
    (env : String → Option String)
    (store : String → Option (Database α))
    (body : Conn α → Except PyErr β × List Event) :
    (resolvePath (some p) env = p)
  ∧ (env "DATABASE_PATH" = some e → resolvePath none env = e)
  ∧ (env "DATABASE_PATH" = none →
      resolvePath none env = "my_geospatial_data.duckdb")
  ∧ ((get_database_connection store (some p) env body).2.head? =
      some (Event.connect p)) := by
  refine ⟨rfl, ?_, ?_, ?_⟩
  · intro h; simp [resolvePath, os_getenv, h]
  · intro h; simp [resolvePath, os_getenv, h]
  · simp only [get_database_connection, resolvePath]
    cases hc : duckdb_connect store p with
    | error err => simp [hc]
    | ok conn =>
      cases hb : (body conn).1 with
      | ok b => simp [hc, hb]
      | error err => simp [hc, hb]

/-- C4 witness: with `DATABASE_PATH` set to `"envpath"` and no
explicit argument, the environment value is used; with an explicit
argument `"arg"`, the argument wins. -/
theorem C4_path_precedence_witness :
    ((fun n => if n = "DATABASE_PATH" then some "envpath" else none)
        "DATABASE_PATH" = some "envpath")
  ∧ resolvePath none
      (fun n => if n = "DATABASE_PATH" then some "envpath" else none) =
        "envpath"
  ∧ resolvePath (some "arg")
      (fun n => if n = "DATABASE_PATH" then some "envpath" else none) =
        "arg" := by
  have h := C4_path_precedence (α := Unit) (β := Unit) "arg" "envpath"
    (fun n => if n = "DATABASE_PATH" then some "envpath" else none)
    (fun _ => none) (fun _ => (Except.ok (), []))
  exact ⟨by decide, h.2.1 (by decide), h.1⟩

/-- C6: every internal failure of `GET /data/sensor_readings` becomes a
`500` whose `detail` string embeds the underlying cause description
(`str(e)` appended to the fixed prefix); the endpoint produces no
status other than 200 and 500. -/
theorem C6_http_boundary {α : Type} (store : String → Option (Database α))
    (env : String → Option String) :
    ((∃ recs, get_data store env = HttpResult.success recs)
      ∨ (∃ e : PyErr, get_data store env =
          HttpResult.httpException 500 ("Database error: " ++ PyErr.str e)))
  ∧ ((get_data store env).status = 200 ∨ (get_data store env).status = 500) := by
  unfold get_data
  cases h : (get_db_connection store env
      (fun conn =>
        match conn.executeFetchall "sensor_readings" with
        | .error e => (.error e, [Event.execute sensorQuery])
        | .ok rows => (mapRowsRoute rows, [Event.execute sensorQuery]))).1 with
  | ok recs =>
    refine ⟨Or.inl ⟨recs, ?_⟩, Or.inl ?_⟩ <;> simp [h, HttpResult.status]
  | error e =>
    refine ⟨Or.inr ⟨e, ?_⟩, Or.inr ?_⟩ <;> simp [h, HttpResult.status]

/-- C9: a row with more than four columns is mapped to a record built
from its first four positional values only; the extra trailing cells
are ignored and never raise — prepending such a row to any input only
prepends that record to the rest's outcome. -/
theorem C9_extra_columns {α : Type} (a b c d : α) (extra : List α)
    (rest : List (PyRow α)) :
    process_data (PyRow.tuple (a :: b :: c :: d :: extra) :: rest) =
      (process_data rest).map
        (fun out =>
          { id := a, latitude := b, longitude := c, value := d } :: out) := by
  unfold process_data
  cases h : processDataLoop rest with
  | ok out => simp [processDataLoop, h, Except.map]
  | error e => cases e <;> simp [processDataLoop, h, Except.map]

/-- C10: `fetch_geospatial_data` on a caller-supplied connection
executes the fixed query on that very connection and returns the rows;
the connection is handed back unchanged (same handle, same open
state), and the event trace contains the query execution and no close. -/
theorem C10_caller_connection {α : Type} (c : Conn α) :
    ((fetch_geospatial_data_with c).1 = c.executeFetchall "sensor_readings")
  ∧ ((fetch_geospatial_data_with c).2.1 = c)
  ∧ ((fetch_geospatial_data_with c).2.1.isOpen = c.isOpen)
  ∧ ((fetch_geospatial_data_with c).2.2 = [Event.execute sensorQuery])
  ∧ (countClose (fetch_geospatial_data_with c).2.2 = 0) := by
  refine ⟨rfl, rfl, rfl, rfl, rfl⟩

/-- `countClose` distributes over trace concatenation. -/
theorem countClose_append (l1 l2 : List Event) :
    countClose (l1 ++ l2) = countClose l1 + countClose l2 := by
  induction l1 with
  | nil => simp [countClose]
  | cons e rest ih =>
    cases e with
    | connect p => simp [countClose, ih]
    | close =>
      simp [countClose, ih]
      omega
    | execute q => simp [countClose, ih]

/-- Well-formed rows are in one-to-one, order-preserving correspondence
with the records `rowRecord` assigns them. -/
theorem rowRecord_forall2 {α : Type} (rows : List (PyRow α))
    (h : ∀ r ∈ rows, wellFormed r) :
    List.Forall₂ (fun r rec => rowRecord r = some rec) rows
      (rows.filterMap rowRecord) := by
  induction rows with
  | nil => simp
  | cons row rest ih =>
    have hrow := h row (by simp)
    have hrest : ∀ r ∈ rest, wellFormed r := fun r hr => h r (by simp [hr])
    cases row with
    | nonSeq => cases hrow
    | tuple cells =>
      match cells with
      | [] => simp [wellFormed] at hrow
      | [a] => simp [wellFormed] at hrow
      | [a, b] => simp [wellFormed] at hrow
      | [a, b, c] => simp [wellFormed] at hrow
      | a :: b :: c :: d :: t =>
        simp only [rowRecord, List.filterMap_cons]
        exact List.Forall₂.cons rfl (ih hrest)

/-- C2 counterexample: with a reachable store whose database lacks the
`sensor_readings` table, the scoped operation fails after acquisition,
and the close routine runs twice — not once — on that exit path (the
`except` block closes, the `finally` block closes again). -/
theorem C2_counterexample :
    (countClose (fetch_geospatial_data
        (fun _ => some ({ tables := [] } : Database Nat))
        none (fun _ => none)).2 = 2)
  ∧ ¬ (countClose (fetch_geospatial_data
        (fun _ => some ({ tables := [] } : Database Nat))
        none (fun _ => none)).2 = 1) := by
  exact ⟨rfl, by decide⟩

/-- C2 amended: when acquisition fails, no close runs (no connection
was ever acquired); when acquisition succeeds and the operation
completes normally, the close routine runs exactly once; when the
operation raises after acquisition, it runs exactly twice. -/
theorem C2_close_count {α β : Type} (store : String → Option (Database α))
    (dbPath : Option String) (env : String → Option String)
    (body : Conn α → Except PyErr β × List Event)
    (hbody : ∀ c, countClose (body c).2 = 0) :
    (∀ e, duckdb_connect store (resolvePath dbPath env) = .error e →
        countClose (get_database_connection store dbPath env body).2 = 0)
  ∧ (∀ conn, duckdb_connect store (resolvePath dbPath env) = .ok conn →
      ((∃ b, (body conn).1 = Except.ok b) →
        countClose (get_database_connection store dbPath env body).2 = 1)
    ∧ ((∃ er, (body conn).1 = Except.error er) →
        countClose (get_database_connection store dbPath env body).2 = 2)) := by
  constructor
  · intro e he
    simp [get_database_connection, he, countClose]
  · intro conn hc
    constructor
    · rintro ⟨b, hb⟩
      simp [get_database_connection, hc, hb, countClose, countClose_append,
        hbody conn]
    · rintro ⟨er, her⟩
      simp [get_database_connection, hc, her, countClose, countClose_append,
        hbody conn]

/-- C2 witness: on the demo store with a trivially succeeding body, the
scoped acquisition closes the connection exactly once. -/
theorem C2_close_count_witness :
    countClose (get_database_connection demoStore none noEnv
      (fun _ => (Except.ok (0 : Nat), ([] : List Event)))).2 = 1 :=
  ((C2_close_count demoStore none noEnv
      (fun _ => (Except.ok (0 : Nat), ([] : List Event)))
      (fun _ => rfl)).2
    { db := demoDb, isOpen := true } rfl).1 ⟨0, rfl⟩

/-- C3: when the store cannot be opened at the resolved path, the
scoped operation fails with `ConnectionError` carrying the offending
path, the trace shows a single connect attempt and nothing else (no
retry), `get_sensor_readings` propagates the error unchanged, and the
HTTP boundary answers `500` with the cause in its detail string. -/
theorem C3_missing_store {α : Type} (store : String → Option (Database α))
    (dbPath : Option String) (env : String → Option String)
    (h : store (resolvePath dbPath env) = none)
    (h2 : store (resolvePath none env) = none) :
    ((fetch_geospatial_data store dbPath env).1 =
      .error (.connectionError
        ("unable to open database file: " ++ resolvePath dbPath env)))
  ∧ ((fetch_geospatial_data store dbPath env).2 =
      [Event.connect (resolvePath dbPath env)])
  ∧ ((get_sensor_readings store dbPath env).1 =
      .error (.connectionError
        ("unable to open database file: " ++ resolvePath dbPath env)))
  ∧ (get_data store env =
      HttpResult.httpException 500
        ("Database error: " ++
          ("unable to open database file: " ++ resolvePath none env)))
  ∧ ((get_data (α := α) store env).status = 500) := by
  have hget : get_data store env =
      HttpResult.httpException 500
        ("Database error: " ++
          ("unable to open database file: " ++ resolvePath none env)) := by
    simp [get_data, get_db_connection, duckdb_connect, os_getenv, resolvePath,
      PyErr.str] at h2 ⊢
    simp [h2, PyErr.str]
  refine ⟨?_, ?_, ?_, hget, by simp [hget, HttpResult.status]⟩
  · simp [fetch_geospatial_data, get_database_connection, duckdb_connect, h]
  · simp [fetch_geospatial_data, get_database_connection, duckdb_connect, h]
  · simp [get_sensor_readings, fetch_geospatial_data,
      get_database_connection, duckdb_connect, h]

/-- C3 witness: on an empty filesystem the endpoint answers `500`. -/
theorem C3_missing_store_witness :
    ((fun _ : String => (none : Option (Database Nat)))
        (resolvePath none noEnv) = none)
  ∧ (get_data (α := Nat) (fun _ => none) noEnv).status = 500 :=
  ⟨rfl, (C3_missing_store (fun _ => none) none noEnv rfl rfl).2.2.2.2⟩

/-- C5: on a reachable store whose `sensor_readings` rows are all
well-formed, `get_sensor_readings` succeeds with exactly one record per
row, in store order, each populated from the first four positional
values of its row. -/
theorem C5_well_formed_rows {α : Type} (store : String → Option (Database α))
    (dbPath : Option String) (env : String → Option String) (db : Database α)
    (rows : List (PyRow α))
    (hstore : store (resolvePath dbPath env) = some db)
    (htable : db.lookup "sensor_readings" = some rows)
    (hwf : ∀ r ∈ rows, wellFormed r) :
    ((get_sensor_readings store dbPath env).1 =
        .ok (rows.filterMap rowRecord))
  ∧ ((rows.filterMap rowRecord).length = rows.length)
  ∧ List.Forall₂ (fun r rec => rowRecord r = some rec) rows
      (rows.filterMap rowRecord) := by
  have hf2 := rowRecord_forall2 rows hwf
  have hnons : ∀ r ∈ rows, r ≠ PyRow.nonSeq := by
    intro r hr hne
    have hw := hwf r hr
    rw [hne] at hw
    cases hw
  have hloop := processDataLoop_tuples rows hnons
  refine ⟨?_, hf2.length_eq.symm, hf2⟩
  simp [get_sensor_readings, fetch_geospatial_data, get_database_connection,
    duckdb_connect, hstore, Conn.executeFetchall, htable, process_data, hloop]

/-- C7: against an open connection on a database without a
`sensor_readings` table, query execution fails with `QueryError`
(distinguishable by construction from `ConnectionError` and from the
`DataShapeError` kind `valueError`), the scoped fetch propagates it,
and the HTTP boundary answers `500` with the cause in its detail. -/
theorem C7_missing_table {α : Type} (store : String → Option (Database α))
    (env : String → Option String) (db : Database α)
    (hstore : store (resolvePath none env) = some db)
    (htable : db.lookup "sensor_readings" = none) :
    (∀ c : Conn α, c.db = db → c.isOpen = true →
        c.executeFetchall "sensor_readings" =
          .error (.queryError
            ("Table with name " ++ "sensor_readings" ++ " does not exist")))
  ∧ ((fetch_geospatial_data store none env).1 =
      .error (.queryError
        ("Table with name " ++ "sensor_readings" ++ " does not exist")))
  ∧ (get_data store env =
      HttpResult.httpException 500
        ("Database error: " ++
          ("Table with name " ++ "sensor_readings" ++ " does not exist")))
  ∧ ((get_data (α := α) store env).status = 500)
  ∧ (∀ m1 m2 : String, PyErr.queryError m1 ≠ PyErr.connectionError m2
        ∧ PyErr.queryError m1 ≠ PyErr.valueError m2) := by
  have hstore2 : store (os_getenv env "DATABASE_PATH"
      "my_geospatial_data.duckdb") = some db := hstore
  have hget : get_data store env =
      HttpResult.httpException 500
        ("Database error: " ++
          ("Table with name " ++ "sensor_readings" ++ " does not exist")) := by
    simp [get_data, get_db_connection, duckdb_connect, hstore2,
      Conn.executeFetchall, htable, PyErr.str]
  refine ⟨?_, ?_, hget, by simp [hget, HttpResult.status], ?_⟩
  · intro c h1 h2
    simp [Conn.executeFetchall, h1, h2, htable]
  · simp [fetch_geospatial_data, get_database_connection, duckdb_connect,
      hstore, Conn.executeFetchall, htable]
  · intro m1 m2
    exact ⟨by simp, by simp⟩

/-- C7 witness: a store holding a database with no tables makes the
endpoint answer `500`. -/
theorem C7_missing_table_witness :
    ((fun _ : String => some ({ tables := [] } : Database Nat))
        (resolvePath none noEnv) = some { tables := [] })
  ∧ (({ tables := [] } : Database Nat).lookup "sensor_readings" = none)
  ∧ (get_data (α := Nat) (fun _ => some { tables := [] }) noEnv).status =
      500 :=
  ⟨rfl, rfl,
    (C7_missing_table (fun _ => some { tables := [] }) noEnv
      { tables := [] } rfl rfl).2.2.2.1⟩

/-- C8: `process_data` raises its `ValueError` (the DataShapeError
kind) exactly when the mapping loop itself throws — in this code, when
a non-sequence row makes `len(row)` raise `TypeError` — never because
of a short row: inputs whose rows are all genuine tuples succeed with
the short ones silently dropped, and no error kind other than
`ValueError` ever escapes. -/
theorem C8_shape_error_iff {α : Type} (data : List (PyRow α)) :
    ((∃ msg, process_data data = .error (.valueError msg)) ↔
        PyRow.nonSeq ∈ data)
  ∧ ((∀ r ∈ data, r ≠ PyRow.nonSeq) →
        process_data data = .ok (data.filterMap rowRecord))
  ∧ (∀ e, process_data data = .error e →
        ∃ msg, e = PyErr.valueError msg) := by
  have hok : (∀ r ∈ data, r ≠ PyRow.nonSeq) →
      process_data data = .ok (data.filterMap rowRecord) := by
    intro h
    simp [process_data, processDataLoop_tuples data h]
  have herr : PyRow.nonSeq ∈ data →
      process_data data = .error (.valueError
        ("Error processing data: " ++ "object of this type has no len()")) := by
    intro h
    simp [process_data, processDataLoop_nonSeq data h, PyErr.str]
  refine ⟨⟨?_, ?_⟩, hok, ?_⟩
  · rintro ⟨msg, hmsg⟩
    by_contra hmem
    have hno : ∀ r ∈ data, r ≠ PyRow.nonSeq := by
      intro r hr hne
      exact hmem (hne ▸ hr)
    rw [hok hno] at hmsg
    simp at hmsg
  · intro h
    exact ⟨_, herr h⟩
  · intro e he
    by_cases hmem : PyRow.nonSeq ∈ data
    · have h2 := (herr hmem).symm.trans he
      simp only [Except.error.injEq] at h2
      exact ⟨_, h2.symm⟩
    · have hno : ∀ r ∈ data, r ≠ PyRow.nonSeq := by
        intro r hr hne
        exact hmem (hne ▸ hr)
      rw [hok hno] at he
      simp at he

/-- C8 witness: the claim's dichotomy evaluated on a two-row input
holding one short tuple and one non-sequence row. -/
theorem C8_shape_error_iff_witness :
    ((∃ msg, process_data ([PyRow.tuple [1, 2], PyRow.nonSeq] :
          List (PyRow Nat)) = .error (.valueError msg)) ↔
        PyRow.nonSeq ∈ ([PyRow.tuple [1, 2], PyRow.nonSeq] :
          List (PyRow Nat)))
  ∧ ((∀ r ∈ ([PyRow.tuple [1, 2], PyRow.nonSeq] : List (PyRow Nat)),
        r ≠ PyRow.nonSeq) →
      process_data ([PyRow.tuple [1, 2], PyRow.nonSeq] : List (PyRow Nat)) =
        .ok (([PyRow.tuple [1, 2], PyRow.nonSeq] :
          List (PyRow Nat)).filterMap rowRecord))
  ∧ (∀ e, process_data ([PyRow.tuple [1, 2], PyRow.nonSeq] :
          List (PyRow Nat)) = .error e →
        ∃ msg, e = PyErr.valueError msg) :=
  C8_shape_error_iff [PyRow.tuple [1, 2], PyRow.nonSeq]

/-- C1: on the spec's end-to-end example store — two well-formed rows
and one short row — `get_sensor_readings` drops the short row and
succeeds, but the `GET /data/sensor_readings` handler, whose
comprehension indexes `row[3]` with no arity guard, aborts on the
short row's `IndexError` and answers `500` with no data at all,
instead of dropping only that row. -/
theorem C1_short_row_end_to_end :
    ((get_sensor_readings exampleStore none noEnv).1 =
      .ok [{ id := "1", latitude := "37.1", longitude := "-122.1",
             value := "10.5" },
           { id := "2", latitude := "37.2", longitude := "-122.2",
             value := "20.0" }])
  ∧ (get_data exampleStore noEnv =
      HttpResult.httpException 500
        ("Database error: " ++ "tuple index out of range")) := by
  exact ⟨rfl, rfl⟩

/-- C5 witness: on the demo store the two rows map to the two expected
records. -/
theorem C5_well_formed_rows_witness :
    (demoStore (resolvePath none noEnv) = some demoDb)
  ∧ (demoDb.lookup "sensor_readings" = some demoRows)
  ∧ ((get_sensor_readings demoStore none noEnv).1 =
      .ok [{ id := 1, latitude := 2, longitude := 3, value := 4 },
           { id := 5, latitude := 6, longitude := 7, value := 8 }]) := by
  have h := C5_well_formed_rows demoStore none noEnv demoDb demoRows rfl
    (by decide) (by decide)
  exact ⟨rfl, by decide, h.1.trans rfl⟩

end Kepler
